import Mathlib

/-!
# Verification of `get_weather` (src/solutions/phase-05/tools.py)

A shallow embedding of the weather-lookup tool.  The Python function reads
the environment variable `WEATHER_API_KEY`, optionally issues one HTTP GET
request via `httpx`, and converts every failure into a descriptive result
string.

Modelling choices (all external behaviour is made explicit as data):
* The environment is the value of `WEATHER_API_KEY`: `Option String`
  (`none` = unset).  the Python test `not api_key` is true for `None` and `""`.
* The network is an oracle `net : Request → HttpResult` giving, for the
  request the code would issue, either a transport-level failure
  (`httpx.RequestError`, carrying its `str()` detail) or an HTTP response
  with a status code and a body.  The body is `Except String Json`:
  `Except.error d` models `response.json()` raising (detail `d`),
  `Except.ok v` the decoded JSON value.
* Decoded JSON is the inductive `Json`.  A number carries the string that
  the Python `str()` call renders for it (the program only ever observes numbers
  through f-string interpolation, i.e. through `str()`).
* `get_weather` returns the result string together with the list of
  requests it issued, so that "no network call" / "exactly one request"
  are stated as facts about that trace.
-/

/-- Decoded JSON value, as produced by the Python call `response.json()`.
A `num` carries its Python `str()` rendering (e.g. `"15"` for the int 15,
`"15.0"` for the float 15.0): the program observes numbers only via
f-string interpolation. -/
inductive Json where
  | null : Json
  | bool (b : Bool) : Json
  | num (render : String) : Json
  | str (s : String) : Json
  | arr (elems : List Json) : Json
  | obj (fields : List (String × Json)) : Json

mutual

/-- Python `repr()` of a decoded JSON value (dict/list/str/num/bool/None).
The exact repr text matters only as the detail carried inside error
strings; it models CPython. -/
def Json.reprPy : Json → String
  | Json.null => "None"
  | Json.bool b => if b then "True" else "False"
  | Json.num r => r
  | Json.str s => "\x27" ++ s ++ "\x27"
  | Json.arr xs => "[" ++ reprElems xs ++ "]"
  | Json.obj fs => "\x7b" ++ reprFields fs ++ "\x7d"

/-- Comma-separated `repr()` of list elements. -/
def reprElems : List Json → String
  | [] => ""
  | [v] => Json.reprPy v
  | v :: rest => Json.reprPy v ++ ", " ++ reprElems rest

/-- Comma-separated `repr()` of dict entries. -/
def reprFields : List (String × Json) → String
  | [] => ""
  | [(k, v)] => "\x27" ++ k ++ "\x27: " ++ Json.reprPy v
  | (k, v) :: rest => "\x27" ++ k ++ "\x27: " ++ Json.reprPy v ++ ", " ++ reprFields rest

end

/-- Python `str()` of a decoded JSON value: identical to `repr()` except
that a string renders without quotes.  This is what f-string interpolation
applies to each extracted field. -/
def Json.render : Json → String
  | Json.str s => s
  | j => Json.reprPy j

/-- Python `value[key]` for a string key on a decoded JSON value.
On a dict, a missing key raises `KeyError(key)`, whose `str()` is the
`repr()` of the key.  On non-dict values the subscript raises `TypeError`;
the detail strings model the CPython messages (for `num` we use the `int`
form).  The error string is the `str()` of the raised exception, which the
caller interpolates into its message. -/
def Json.getField : Json → String → Except String Json
  | Json.obj fields, key =>
    match fields.lookup key with
    | some v => Except.ok v
    | none => Except.error ("\x27" ++ key ++ "\x27")
  | Json.str _, _ => Except.error "string indices must be integers"
  | Json.arr _, _ => Except.error "list indices must be integers or slices, not str"
  | Json.num _, _ => Except.error "\x27int\x27 object is not subscriptable"
  | Json.bool _, _ => Except.error "\x27bool\x27 object is not subscriptable"
  | Json.null, _ => Except.error "\x27NoneType\x27 object is not subscriptable"

/-- The outbound HTTP request `httpx.get(url, params=..., timeout=10.0)`
would issue: method, base url, query parameters in order, and the timeout
(in seconds; the literal in the source is `10.0`). -/
structure Request where
  method : String
  url : String
  params : List (String × String)
  timeoutSeconds : Nat
deriving DecidableEq

/-- The single request built from lines 50-53 of tools.py:
`GET http://api.weatherapi.com/v1/current.json` with
`params = {"key": api_key, "q": city, "aqi": "no"}` and `timeout=10.0`. -/
def weatherRequest (api_key city : String) : Request :=
  { method := "GET"
    url := "http://api.weatherapi.com/v1/current.json"
    params := [("key", api_key), ("q", city), ("aqi", "no")]
    timeoutSeconds := 10 }

/-- What the network does with the issued request: either a transport-level
failure before any HTTP response (`httpx.RequestError`, carrying its
`str()` detail), or an HTTP response with a status code and a body
(`Except.error d` = `response.json()` raises with detail `d`). -/
inductive HttpResult where
  | transportError (detail : String) : HttpResult
  | response (status : Nat) (body : Except String Json) : HttpResult

/-- httpx `Response.is_success`: a 2xx status.  `raise_for_status()`
raises `HTTPStatusError` exactly when the status is not 2xx. -/
def isSuccessStatus (status : Nat) : Bool :=
  200 ≤ status && status ≤ 299

/-- The full URL (base plus query string) that httpx reports inside an
`HTTPStatusError` message.  Percent-encoding of parameter values is not
modelled; the claims do not depend on it. -/
def requestFullUrl (r : Request) : String :=
  r.url ++ "?" ++ joinParams r.params
where
  joinParams : List (String × String) → String
    | [] => ""
    | [(k, v)] => k ++ "=" ++ v
    | (k, v) :: rest => k ++ "=" ++ v ++ "&" ++ joinParams rest

/-- The class label httpx puts in front of the status code inside an
`HTTPStatusError` message. -/
def statusClassLabel (status : Nat) : String :=
  if status < 200 then "Informational response"
  else if status < 300 then "Success"
  else if status < 400 then "Redirect response"
  else if status < 500 then "Client error"
  else "Server error"

/-- Models `str()` of `httpx.HTTPStatusError` raised by
`raise_for_status()`: e.g. `Client error \x27400\x27 for url \x27...\x27`.
httpx additionally prints the reason phrase and a documentation link; the
claims depend only on the numeric status being present. -/
def httpStatusErrorStr (status : Nat) (fullUrl : String) : String :=
  statusClassLabel status ++ " \x27" ++ toString status ++ "\x27 for url \x27" ++ fullUrl ++ "\x27"

/-- The exceptions the `try` block of `get_weather` can raise, tagged by
the `except` clause of tools.py that would catch them.  The two specific
httpx classes are disjoint (`HTTPStatusError` and `RequestError` are
sibling subclasses); everything else (KeyError, TypeError, JSON decode
errors, ...) lands in `other`.  Each constructor carries the `str()` of
the exception. -/
inductive Exn where
  | httpStatusError (status : Nat) (detail : String) : Exn
  | requestError (detail : String) : Exn
  | other (detail : String) : Exn
deriving DecidableEq

/-- The seven values extracted from the response JSON (lines 59-65). -/
structure WeatherFields where
  location : Json
  country : Json
  temp_c : Json
  temp_f : Json
  condition : Json
  humidity : Json
  wind_kph : Json

/-- Lines 59-65 of tools.py: each field is looked up by re-indexing from
`data`, in source order; the first failing subscript raises and the detail
is the `str()` of that exception. -/
def extractFields (data : Json) : Except String WeatherFields := do
  let location ← (← data.getField "location").getField "name"
  let country ← (← data.getField "location").getField "country"
  let temp_c ← (← data.getField "current").getField "temp_c"
  let temp_f ← (← data.getField "current").getField "temp_f"
  let condition ← (← (← data.getField "current").getField "condition").getField "text"
  let humidity ← (← data.getField "current").getField "humidity"
  let wind_kph ← (← data.getField "current").getField "wind_kph"
  pure { location := location, country := country, temp_c := temp_c, temp_f := temp_f,
         condition := condition, humidity := humidity, wind_kph := wind_kph }

/-- The multi-line f-string of lines 67-71, with each field rendered by
Python `str()`. -/
def formatReport (f : WeatherFields) : String :=
  "Weather for " ++ f.location.render ++ ", " ++ f.country.render ++ ":\n🌡️ Temperature: "
    ++ f.temp_c.render ++ "°C (" ++ f.temp_f.render ++ "°F)\n☁️ Condition: "
    ++ f.condition.render ++ "\n💧 Humidity: " ++ f.humidity.render ++ "%\n💨 Wind: "
    ++ f.wind_kph.render ++ " km/h"

/-- The body of the `try` block (lines 48-71), given the behaviour of the network on the issued request: returns the success string or the raised
exception. -/
def tryBlock (req : Request) (res : HttpResult) : Except Exn String :=
  match res with
  | HttpResult.transportError detail => Except.error (Exn.requestError detail)
  | HttpResult.response status body =>
    if isSuccessStatus status then
      match body with
      | Except.error d => Except.error (Exn.other d)
      | Except.ok data =>
        match extractFields data with
        | Except.error d => Except.error (Exn.other d)
        | Except.ok f => Except.ok (formatReport f)
    else
      Except.error (Exn.httpStatusError status (httpStatusErrorStr status (requestFullUrl req)))

/-- Line 46: the fixed configuration-error string. -/
def configErrorMsg : String :=
  "Error: Weather API key not configured. Please add WEATHER_API_KEY to your .env file."

/-- Line 75: the HTTP-400 result. -/
def notFoundMsg (city : String) : String :=
  "Sorry, I couldn\x27t find weather data for \x27" ++ city ++ "\x27. Please check the city name."

/-- Lines 73-80: the three `except` clauses, tried in source order
(`HTTPStatusError` first, then `RequestError`, then `Exception`). -/
def handleExn (city : String) : Exn → String
  | Exn.httpStatusError status detail =>
    if status == 400 then notFoundMsg city
    else "Error fetching weather: " ++ detail
  | Exn.requestError detail => "Network error: Could not connect to weather service. " ++ detail
  | Exn.other detail => "Unexpected error: " ++ detail

/-- `get_weather` (lines 26-80).  Besides the result string it returns the
trace of issued requests (empty when the key check short-circuits,
otherwise the single request), so that claims about network calls are
statements about this trace.  `not api_key` in Python is true for `None`
and for `""`. -/
def get_weather (api_key : Option String) (city : String)
    (net : Request → HttpResult) : String × List Request :=
  match api_key with
  | none => (configErrorMsg, [])
  | some key =>
    if key = "" ∨ key = "your_weather_api_key_here" then (configErrorMsg, [])
    else
      match tryBlock (weatherRequest key city) (net (weatherRequest key city)) with
      | Except.ok s => (s, [weatherRequest key city])
      | Except.error e => (handleExn city e, [weatherRequest key city])

/-- `TOOLS = [get_weather]` (line 86): the registry exposes the single
tool.  Modelled as the list of tool names. -/
def TOOLS : List String := ["get_weather"]

/-- `s` contains `sub` as a substring (witnessed decomposition). -/
def ContainsSub (s sub : String) : Prop :=
  ∃ pre post, s = pre ++ sub ++ post

/-! ## Helper lemmas and concrete fixtures -/

/-- Appending on the right preserves the first character. -/
theorem firstChar_append (s t : String) (c : Char) (h : s.data.head? = some c) :
    (s ++ t).data.head? = some c := by
  have hne : s.data ≠ [] := by intro hn; rw [hn] at h; cases h
  rw [String.data_append, List.head?_append_of_ne_nil _ hne, h]

/-- Strings whose first characters differ are distinct. -/
theorem ne_of_head_ne (s t : String) (c1 c2 : Char) (h1 : s.data.head? = some c1)
    (h2 : t.data.head? = some c2) (hc : c1 ≠ c2) : s ≠ t := by
  intro h
  subst h
  rw [h2] at h1
  exact hc (Option.some.inj h1).symm

/-- With a configured key, the trace of issued requests is the single
weather request. -/
theorem get_weather_trace (key city : String) (net : Request → HttpResult)
    (hk : ¬(key = "" ∨ key = "your_weather_api_key_here")) :
    (get_weather (some key) city net).snd = [weatherRequest key city] := by
  simp only [get_weather]
  rw [if_neg hk]
  cases tryBlock (weatherRequest key city) (net (weatherRequest key city)) <;> rfl

/-- The mocked successful provider payload of the Paris test of the spec:
`temp_c=15`, `temp_f=59`, `condition.text="Partly cloudy"`, `humidity=70`,
`wind_kph=12`, `location.name="Paris"`, `location.country="France"`. -/
def parisJson : Json :=
  Json.obj
    [("location", Json.obj [("name", Json.str "Paris"), ("country", Json.str "France")]),
     ("current", Json.obj
       [("temp_c", Json.num "15"), ("temp_f", Json.num "59"),
        ("condition", Json.obj [("text", Json.str "Partly cloudy")]),
        ("humidity", Json.num "70"), ("wind_kph", Json.num "12")])]

/-- The report the template renders for `parisJson`. -/
def parisReport : String :=
  "Weather for Paris, France:\n🌡️ Temperature: 15°C (59°F)\n☁️ Condition: Partly cloudy\n💧 Humidity: 70%\n💨 Wind: 12 km/h"

/-- Inversion: a success of the `try` block is always a formatted report. -/
theorem tryBlock_ok (req : Request) (res : HttpResult) (s : String)
    (h : tryBlock req res = Except.ok s) : ∃ f, s = formatReport f := by
  unfold tryBlock at h
  split at h
  · exact absurd h (by simp)
  · split at h
    · split at h
      · exact absurd h (by simp)
      · split at h
        · exact absurd h (by simp)
        · rename_i f heq
          injection h with h2
          exact ⟨f, h2.symm⟩
    · exact absurd h (by simp)

/-! ## Claims -/

/-- C1: for every city string and every environment/provider behaviour,
`get_weather` returns a string result and every outcome is one of the
classified descriptive messages (configuration error, success report,
city-not-found, provider error, network error, unexpected error); no
failure path escapes this classification, i.e. nothing propagates to the
caller. -/
theorem get_weather_result_classified (api_key : Option String) (city : String)
    (net : Request → HttpResult) :
    (get_weather api_key city net).fst = configErrorMsg ∨
    (∃ f, (get_weather api_key city net).fst = formatReport f) ∨
    (get_weather api_key city net).fst = notFoundMsg city ∨
    (∃ d, (get_weather api_key city net).fst = "Error fetching weather: " ++ d) ∨
    (∃ d, (get_weather api_key city net).fst
            = "Network error: Could not connect to weather service. " ++ d) ∨
    (∃ d, (get_weather api_key city net).fst = "Unexpected error: " ++ d) := by
  cases api_key with
  | none => exact Or.inl rfl
  | some key =>
    simp only [get_weather]
    by_cases hk : key = "" ∨ key = "your_weather_api_key_here"
    · rw [if_pos hk]; exact Or.inl rfl
    · rw [if_neg hk]
      cases htb : tryBlock (weatherRequest key city) (net (weatherRequest key city)) with
      | ok s =>
        obtain ⟨f, hf⟩ := tryBlock_ok _ _ _ htb
        exact Or.inr (Or.inl ⟨f, hf⟩)
      | error e =>
        cases e with
        | httpStatusError status detail =>
          simp only [handleExn]
          by_cases h4 : (status == 400) = true
          · rw [if_pos h4]
            exact Or.inr (Or.inr (Or.inl rfl))
          · rw [if_neg h4]
            exact Or.inr (Or.inr (Or.inr (Or.inl ⟨detail, rfl⟩)))
        | requestError detail =>
          exact Or.inr (Or.inr (Or.inr (Or.inr (Or.inl ⟨detail, rfl⟩))))
        | other detail =>
          exact Or.inr (Or.inr (Or.inr (Or.inr (Or.inr ⟨detail, rfl⟩))))

/-- C2: for every city, when `WEATHER_API_KEY` is unset or equals the
placeholder `your_weather_api_key_here`, `get_weather` returns the fixed
configuration-error string and issues no network request (empty request
trace), whatever the network would have answered. -/
theorem get_weather_key_not_configured (api_key : Option String) (city : String)
    (net : Request → HttpResult)
    (h : api_key = none ∨ api_key = some "your_weather_api_key_here") :
    get_weather api_key city net = (configErrorMsg, []) := by
  rcases h with h | h <;> subst h
  · rfl
  · simp [get_weather]

/-- Witness for C2 at a concrete input: unset key, city "Paris", a network
that would answer with a transport error. -/
theorem get_weather_key_not_configured_witness :
    get_weather none "Paris" (fun _ => HttpResult.transportError "boom")
      = (configErrorMsg, []) :=
  get_weather_key_not_configured none "Paris"
    (fun _ => HttpResult.transportError "boom") (Or.inl rfl)

/-- C10: when `WEATHER_API_KEY` is set to the empty string (present but
empty, neither absent nor the placeholder), `get_weather` also returns the
configuration-error string and makes no network call, because the Python test
`not api_key` uses string truthiness. -/
theorem get_weather_empty_key (city : String) (net : Request → HttpResult) :
    get_weather (some "") city net = (configErrorMsg, []) := by
  simp [get_weather]

/-- Prepending the empty string is the identity. -/
theorem str_nil_append (s : String) : "" ++ s = s := by
  apply String.ext
  rw [String.data_append]
  rfl

/-- C3: with a configured key, for every 2xx provider response whose JSON
yields the expected fields, `get_weather` returns exactly the fixed
multi-line template applied to those field values. -/
theorem get_weather_success_format (key city : String) (net : Request → HttpResult)
    (status : Nat) (data : Json) (f : WeatherFields)
    (hk : ¬(key = "" ∨ key = "your_weather_api_key_here"))
    (hres : net (weatherRequest key city) = HttpResult.response status (Except.ok data))
    (hst : isSuccessStatus status = true)
    (hex : extractFields data = Except.ok f) :
    (get_weather (some key) city net).fst = formatReport f := by
  have htb : tryBlock (weatherRequest key city) (net (weatherRequest key city))
      = Except.ok (formatReport f) := by
    rw [hres]
    simp [tryBlock, hst, hex]
  simp only [get_weather]
  rw [if_neg hk, htb]

/-- Witness for C3 at the Paris payload of the spec: the output is the exact
rendered report, and it contains "Paris" and all five mocked values. -/
theorem get_weather_success_format_witness :
    (get_weather (some "k") "Paris"
        (fun _ => HttpResult.response 200 (Except.ok parisJson))).fst = parisReport ∧
    ContainsSub parisReport "Paris" ∧ ContainsSub parisReport "15" ∧
    ContainsSub parisReport "59" ∧ ContainsSub parisReport "Partly cloudy" ∧
    ContainsSub parisReport "70" ∧ ContainsSub parisReport "12" := by
  refine ⟨?_, ?_, ?_, ?_, ?_, ?_, ?_⟩
  · have h := get_weather_success_format "k" "Paris"
      (fun _ => HttpResult.response 200 (Except.ok parisJson)) 200 parisJson
      { location := Json.str "Paris", country := Json.str "France",
        temp_c := Json.num "15", temp_f := Json.num "59",
        condition := Json.str "Partly cloudy", humidity := Json.num "70",
        wind_kph := Json.num "12" }
      (by decide) rfl rfl rfl
    exact h.trans rfl
  · exact ⟨"Weather for ",
      ", France:\n🌡️ Temperature: 15°C (59°F)\n☁️ Condition: Partly cloudy\n💧 Humidity: 70%\n💨 Wind: 12 km/h", rfl⟩
  · exact ⟨"Weather for Paris, France:\n🌡️ Temperature: ",
      "°C (59°F)\n☁️ Condition: Partly cloudy\n💧 Humidity: 70%\n💨 Wind: 12 km/h", rfl⟩
  · exact ⟨"Weather for Paris, France:\n🌡️ Temperature: 15°C (",
      "°F)\n☁️ Condition: Partly cloudy\n💧 Humidity: 70%\n💨 Wind: 12 km/h", rfl⟩
  · exact ⟨"Weather for Paris, France:\n🌡️ Temperature: 15°C (59°F)\n☁️ Condition: ",
      "\n💧 Humidity: 70%\n💨 Wind: 12 km/h", rfl⟩
  · exact ⟨"Weather for Paris, France:\n🌡️ Temperature: 15°C (59°F)\n☁️ Condition: Partly cloudy\n💧 Humidity: ",
      "%\n💨 Wind: 12 km/h", rfl⟩
  · exact ⟨"Weather for Paris, France:\n🌡️ Temperature: 15°C (59°F)\n☁️ Condition: Partly cloudy\n💧 Humidity: 70%\n💨 Wind: ",
      " km/h", rfl⟩

/-- C5: with a configured key, a transport-level failure yields exactly the
network-error message carrying the underlying failure detail; it contains
the "Network error" indicator and differs from every provider-error
(HTTP status) message. -/
theorem get_weather_transport_error (key city detail : String) (net : Request → HttpResult)
    (hk : ¬(key = "" ∨ key = "your_weather_api_key_here"))
    (hres : net (weatherRequest key city) = HttpResult.transportError detail) :
    (get_weather (some key) city net).fst
      = "Network error: Could not connect to weather service. " ++ detail ∧
    ContainsSub ((get_weather (some key) city net).fst) "Network error" ∧
    ∀ d, (get_weather (some key) city net).fst ≠ "Error fetching weather: " ++ d := by
  have htb : tryBlock (weatherRequest key city) (net (weatherRequest key city))
      = Except.error (Exn.requestError detail) := by
    rw [hres]
    rfl
  have hfst : (get_weather (some key) city net).fst
      = "Network error: Could not connect to weather service. " ++ detail := by
    simp only [get_weather]
    rw [if_neg hk, htb]
    rfl
  refine ⟨hfst, ?_, ?_⟩
  · rw [hfst]
    refine ⟨"", ": Could not connect to weather service. " ++ detail, ?_⟩
    rw [str_nil_append, ← String.append_assoc]
    rfl
  · intro d
    rw [hfst]
    exact ne_of_head_ne _ _ 'N' 'E'
      (firstChar_append _ _ _ rfl) (firstChar_append _ _ _ rfl) (by decide)

/-- Witness for C5 at a concrete connection failure. -/
theorem get_weather_transport_error_witness :
    (get_weather (some "k") "Paris"
        (fun _ => HttpResult.transportError "Connection refused")).fst
      = "Network error: Could not connect to weather service. Connection refused" ∧
    (get_weather (some "k") "Paris"
        (fun _ => HttpResult.transportError "Connection refused")).fst
      ≠ "Error fetching weather: dummy" := by
  have h := get_weather_transport_error "k" "Paris" "Connection refused"
    (fun _ => HttpResult.transportError "Connection refused") (by decide) rfl
  exact ⟨h.1.trans rfl, h.2.2 "dummy"⟩

/-- C4: with a configured key, a provider HTTP 400 yields the
city-naming "could not find" message, and any other non-2xx status yields
the "Error fetching weather" message, which carries the status code and is
distinct from the 400 message. -/
theorem get_weather_http_status_error (key city : String) (net : Request → HttpResult)
    (status : Nat) (body : Except String Json)
    (hk : ¬(key = "" ∨ key = "your_weather_api_key_here"))
    (hres : net (weatherRequest key city) = HttpResult.response status body)
    (hst : isSuccessStatus status = false) :
    (status = 400 →
      (get_weather (some key) city net).fst = notFoundMsg city ∧
      ContainsSub (notFoundMsg city) city ∧
      ContainsSub (notFoundMsg city) "find") ∧
    (status ≠ 400 →
      (get_weather (some key) city net).fst
        = "Error fetching weather: "
            ++ httpStatusErrorStr status (requestFullUrl (weatherRequest key city)) ∧
      ContainsSub ((get_weather (some key) city net).fst) (toString status) ∧
      (get_weather (some key) city net).fst ≠ notFoundMsg city) := by
  have htb : tryBlock (weatherRequest key city) (net (weatherRequest key city))
      = Except.error (Exn.httpStatusError status
          (httpStatusErrorStr status (requestFullUrl (weatherRequest key city)))) := by
    rw [hres]
    simp [tryBlock, hst]
  constructor
  · intro h400
    subst h400
    have hfst : (get_weather (some key) city net).fst = notFoundMsg city := by
      simp only [get_weather]
      rw [if_neg hk, htb]
      rfl
    refine ⟨hfst,
      ⟨"Sorry, I couldn\x27t find weather data for \x27",
        "\x27. Please check the city name.", rfl⟩, ?_⟩
    refine ⟨"Sorry, I couldn\x27t ",
      " weather data for \x27" ++ city ++ "\x27. Please check the city name.", ?_⟩
    have hlit : ("Sorry, I couldn\x27t " ++ "find") ++ " weather data for \x27"
        = "Sorry, I couldn\x27t find weather data for \x27" := rfl
    rw [notFoundMsg, ← hlit]
    simp only [String.append_assoc]
  · intro hne
    have h4 : (status == 400) = false := by
      cases hbe : status == 400 with
      | false => rfl
      | true => exact absurd (eq_of_beq hbe) hne
    have hfst : (get_weather (some key) city net).fst
        = "Error fetching weather: "
            ++ httpStatusErrorStr status (requestFullUrl (weatherRequest key city)) := by
      have hh : handleExn city (Exn.httpStatusError status
            (httpStatusErrorStr status (requestFullUrl (weatherRequest key city))))
          = "Error fetching weather: "
              ++ httpStatusErrorStr status (requestFullUrl (weatherRequest key city)) := by
        simp [handleExn, h4]
      simp only [get_weather]
      rw [if_neg hk, htb]
      exact hh
    refine ⟨hfst, ?_, ?_⟩
    · rw [hfst]
      refine ⟨"Error fetching weather: " ++ statusClassLabel status ++ " \x27",
        "\x27 for url \x27" ++ requestFullUrl (weatherRequest key city) ++ "\x27", ?_⟩
      rw [httpStatusErrorStr]
      simp only [String.append_assoc]
    · rw [hfst]
      refine ne_of_head_ne _ _ 'E' 'S' (firstChar_append _ _ _ rfl) ?_ (by decide)
      rw [notFoundMsg]
      exact firstChar_append _ _ _ (firstChar_append _ _ _ rfl)

/-- Witness for C4: HTTP 400 for city "Atlantis" gives the not-found
message; HTTP 404 for city "Berlin" gives the provider-error message,
which differs from the 400 message. -/
theorem get_weather_http_status_error_witness :
    (get_weather (some "k") "Atlantis"
        (fun _ => HttpResult.response 400 (Except.ok Json.null))).fst
      = notFoundMsg "Atlantis" ∧
    (get_weather (some "k") "Berlin"
        (fun _ => HttpResult.response 404 (Except.ok Json.null))).fst
      = "Error fetching weather: "
          ++ httpStatusErrorStr 404 (requestFullUrl (weatherRequest "k" "Berlin")) ∧
    (get_weather (some "k") "Berlin"
        (fun _ => HttpResult.response 404 (Except.ok Json.null))).fst
      ≠ notFoundMsg "Berlin" := by
  have h400 := (get_weather_http_status_error "k" "Atlantis"
    (fun _ => HttpResult.response 400 (Except.ok Json.null)) 400 (Except.ok Json.null)
    (by decide) rfl rfl).1 rfl
  have h404 := (get_weather_http_status_error "k" "Berlin"
    (fun _ => HttpResult.response 404 (Except.ok Json.null)) 404 (Except.ok Json.null)
    (by decide) rfl rfl).2 (by decide)
  exact ⟨h400.1, h404.1, h404.2.2⟩

/-- C6: with a configured key and a 2xx response, a malformed body
(`response.json()` raising) or a body missing an expected field yields the
"Unexpected error" message carrying the failure detail, instead of
raising. -/
theorem get_weather_unexpected_error (key city : String) (net : Request → HttpResult)
    (status : Nat) (body : Except String Json)
    (hk : ¬(key = "" ∨ key = "your_weather_api_key_here"))
    (hres : net (weatherRequest key city) = HttpResult.response status body)
    (hst : isSuccessStatus status = true) :
    (∀ d, body = Except.error d →
        (get_weather (some key) city net).fst = "Unexpected error: " ++ d) ∧
    (∀ data d, body = Except.ok data → extractFields data = Except.error d →
        (get_weather (some key) city net).fst = "Unexpected error: " ++ d) := by
  constructor
  · intro d hb
    subst hb
    have htb : tryBlock (weatherRequest key city) (net (weatherRequest key city))
        = Except.error (Exn.other d) := by
      rw [hres]
      simp [tryBlock, hst]
    simp only [get_weather]
    rw [if_neg hk, htb]
    rfl
  · intro data d hb hex
    subst hb
    have htb : tryBlock (weatherRequest key city) (net (weatherRequest key city))
        = Except.error (Exn.other d) := by
      rw [hres]
      simp [tryBlock, hst, hex]
    simp only [get_weather]
    rw [if_neg hk, htb]
    rfl

/-- A 2xx payload that lacks the `current` object: the extraction of
`temp_c` raises `KeyError(\x27current\x27)`. -/
def missingFieldJson : Json :=
  Json.obj [("location", Json.obj [("name", Json.str "Oslo"), ("country", Json.str "Norway")])]

/-- Witness for C6: a 200 response whose body lacks `current` yields the
unexpected-error message carrying the KeyError detail. -/
theorem get_weather_unexpected_error_witness :
    (get_weather (some "k") "Oslo"
        (fun _ => HttpResult.response 200 (Except.ok missingFieldJson))).fst
      = "Unexpected error: \x27current\x27" :=
  ((get_weather_unexpected_error "k" "Oslo"
      (fun _ => HttpResult.response 200 (Except.ok missingFieldJson)) 200
      (Except.ok missingFieldJson) (by decide) rfl rfl).2
    missingFieldJson "\x27current\x27" rfl rfl).trans rfl

/-- C7: with a configured key, `get_weather` issues exactly one request,
and it is the GET of `http://api.weatherapi.com/v1/current.json` with
query parameters `key=<resolved key>`, `q=<city>`, `aqi=no` and a timeout
of 10 seconds. -/
theorem get_weather_single_request (key city : String) (net : Request → HttpResult)
    (hk : ¬(key = "" ∨ key = "your_weather_api_key_here")) :
    (get_weather (some key) city net).snd = [weatherRequest key city] ∧
    weatherRequest key city =
      { method := "GET", url := "http://api.weatherapi.com/v1/current.json",
        params := [("key", key), ("q", city), ("aqi", "no")], timeoutSeconds := 10 } :=
  ⟨get_weather_trace key city net hk, rfl⟩

/-- Witness for C7 at a concrete key and city. -/
theorem get_weather_single_request_witness :
    (get_weather (some "k") "Paris" (fun _ => HttpResult.transportError "x")).snd
      = [weatherRequest "k" "Paris"] ∧
    weatherRequest "k" "Paris" =
      { method := "GET", url := "http://api.weatherapi.com/v1/current.json",
        params := [("key", "k"), ("q", "Paris"), ("aqi", "no")], timeoutSeconds := 10 } :=
  get_weather_single_request "k" "Paris" (fun _ => HttpResult.transportError "x") (by decide)

/-- Modelled from the spec (design note 9): the reimplementation order of
the exception classification — transport-layer failure first, then
HTTP-status classification, then a catch-all for anything else. -/
def classifyOrdered (city : String) : Exn → String
  | Exn.requestError detail => "Network error: Could not connect to weather service. " ++ detail
  | Exn.httpStatusError status detail =>
    if status == 400 then notFoundMsg city
    else "Error fetching weather: " ++ detail
  | Exn.other detail => "Unexpected error: " ++ detail

/-- C8: the handler order of the source (`HTTPStatusError` first, then
`RequestError`, then the generic catch-all) assigns every failure the same
message as the ordered classification of the spec (transport first, then
status, then catch-all): the two orderings are equivalent because the two
specific exception classes are disjoint and the catch-all comes last in
both. -/
theorem handler_order_equiv (city : String) (e : Exn) :
    handleExn city e = classifyOrdered city e := by
  cases e <;> rfl

/-- C9: `get_weather` holds no state across calls — it is a pure function
of the environment, the city and the provider behaviour, and its result
depends only on the answer of the provider to the request it actually issues:
two invocations with the same key, the same city, and networks that agree
on the issued requests return identical results. -/
theorem get_weather_no_hidden_state (api_key : Option String) (city : String)
    (net net2 : Request → HttpResult)
    (h : ∀ r ∈ (get_weather api_key city net).snd, net r = net2 r) :
    get_weather api_key city net = get_weather api_key city net2 := by
  cases api_key with
  | none => rfl
  | some key =>
    by_cases hk : key = "" ∨ key = "your_weather_api_key_here"
    · simp only [get_weather]
      rw [if_pos hk, if_pos hk]
    · have hr : net (weatherRequest key city) = net2 (weatherRequest key city) := by
        apply h
        rw [get_weather_trace key city net hk]
        exact List.mem_singleton_self _
      simp only [get_weather]
      rw [if_neg hk, if_neg hk, hr]

/-- Witness for C9: two different network oracles that agree on the issued
weather request produce identical invocations. -/
theorem get_weather_no_hidden_state_witness :
    get_weather (some "k") "Paris" (fun _ => HttpResult.response 200 (Except.ok parisJson))
      = get_weather (some "k") "Paris"
          (fun r => if r.timeoutSeconds == 10
            then HttpResult.response 200 (Except.ok parisJson)
            else HttpResult.transportError "different") :=
  get_weather_no_hidden_state (some "k") "Paris"
    (fun _ => HttpResult.response 200 (Except.ok parisJson))
    (fun r => if r.timeoutSeconds == 10
      then HttpResult.response 200 (Except.ok parisJson)
      else HttpResult.transportError "different")
    (by
      intro r hr
      rw [get_weather_trace "k" "Paris" _ (by decide)] at hr
      rw [List.mem_singleton.mp hr]
      rfl)
